import Mathlib

/-!
Verification model of the RAG pipeline of the intelligent engine maintenance
assistant (src/src/rag_pipeline/pipeline.py, src/src/data_processing/embeddings.py,
src/src/config.py).

Modelling conventions:
* Python floats (similarity scores, thresholds, confidences) are modelled as
  rationals `ℚ`; `round(x, n)` is modelled by `roundTo n` (round to the nearest
  multiple of `10 ^ (-n)`; the tie-breaking rule is immaterial to every claim
  proved here).
* Python strings are modelled by Lean `String` (a sequence of unicode code
  points, as in Python); `len` is `String.length`, slicing `s[:n]` is
  `String.take n`.
* The external services (the Chroma nearest-neighbour lookup, the Gemini
  generation endpoint, the embedding endpoint) are modelled as parameters:
  the raw scored results of `similarity_search_with_score`, a fallible
  `generate` function, and a fallible per-attempt provider. Python exceptions
  are modelled by `Except`.
-/

/-- Python `round(q, n)`: round to `n` decimal places. -/
def roundTo (n : ℕ) (q : ℚ) : ℚ :=
  ((round (q * 10 ^ n) : ℤ) : ℚ) / 10 ^ n

/-- A langchain `Document`: `page_content` plus string-keyed `metadata`
(modelled as an association list). -/
structure Document where
  page_content : String
  metadata : List (String × String)
deriving DecidableEq

/-- Python `metadata.get(key, default)`. -/
def metaGet (m : List (String × String)) (key dflt : String) : String :=
  (m.lookup key).getD dflt

/-- Model of `Settings.similarity_threshold` (src/src/config.py line 31): default 0.7. -/
def settings.similarity_threshold : ℚ := 7 / 10

/-- Python `x or default` for an optional float: `None` and `0.0` are falsy
and are replaced by the default; every other value is kept. -/
def pyOr (x : Option ℚ) (dflt : ℚ) : ℚ :=
  match x with
  | none => dflt
  | some v => if v = 0 then dflt else v

/-- Model of `VectorStore.similarity_search` (pipeline.py lines 120-151), post-filter
part.  `raw` stands for the scored results returned by the underlying
`self.vectorstore.similarity_search_with_score(query, k=k)` call, which is an
external service.  The code first replaces the passed threshold by the
configured default when it is falsy (`threshold = threshold or
settings.similarity_threshold`), then, when the resulting threshold is truthy,
keeps exactly the results with `score >= threshold`. -/
def VectorStore.similarity_search (raw : List (Document × ℚ)) (threshold : Option ℚ) :
    List (Document × ℚ) :=
  let t := pyOr threshold settings.similarity_threshold
  if t ≠ 0 then raw.filter (fun p => p.2 ≥ t) else raw

/-- Model of `RAGPipeline._calculate_confidence` (pipeline.py lines 300-318). -/
def RAGPipeline.calculate_confidence (retrieved_docs : List (Document × ℚ)) : ℚ :=
  if retrieved_docs.isEmpty then 0
  else
    let avg_score := (retrieved_docs.map Prod.snd).sum / (retrieved_docs.length : ℚ)
    let confidence := min 1 (max 0 avg_score)
    roundTo 2 confidence

/-- Arithmetic mean, written from the spec's words for comparison with the
source definition. -/
def specMean (xs : List ℚ) : ℚ := xs.sum / (xs.length : ℚ)

/-- Clamp to [0,1], written from the spec's words. -/
def specClamp01 (x : ℚ) : ℚ := min 1 (max 0 x)

/-- Record produced by `RAGPipeline._format_sources` per retrieved result
(pipeline.py lines 331-337). -/
structure SourceInfo where
  id : ℕ
  content : String
  metadata : List (String × String)
  similarity_score : ℚ
deriving DecidableEq

/-- Model of `RAGPipeline._format_sources` (pipeline.py lines 320-340). -/
def RAGPipeline.format_sources (retrieved_docs : List (Document × ℚ)) : List SourceInfo :=
  retrieved_docs.enum.map fun p =>
    { id := p.1 + 1
      content :=
        if p.2.1.page_content.length > 200 then p.2.1.page_content.take 200 ++ "..."
        else p.2.1.page_content
      metadata := p.2.1.metadata
      similarity_score := roundTo 3 p.2.2 }

/-- The per-chunk source label `doc.metadata.get('source', 'Unknown')` used by
`RAGPipeline._prepare_context` (pipeline.py lines 263, 266). -/
def sourceOf (doc : Document) : String :=
  metaGet doc.metadata "source" "Unknown"

/-- The loop of `RAGPipeline._prepare_context` (pipeline.py lines 251-267),
accumulating `context_parts`.  Each part is kept as a pair
(source label, document text after any truncation); the Python code appends the
formatted string `"Source: " ++ label ++ "\n" ++ text` for each such pair (see
`formatPart` and `RAGPipeline.prepare_context`).  `cur` is `current_length`,
which the source advances by `len(doc_text)` only — the labels and the
joining separators are not counted. -/
def RAGPipeline.prepare_context_parts (max_context_length : ℕ) (cur : ℕ) :
    List (Document × ℚ) → List (String × String)
  | [] => []
  | (doc, _) :: rest =>
    let doc_text := doc.page_content
    if cur + doc_text.length > max_context_length then
      -- truncate the document to fit, then break out of the loop
      let remaining_length := max_context_length - cur
      if remaining_length > 100 then
        [(sourceOf doc, doc_text.take remaining_length ++ "...")]
      else
        []
    else
      (sourceOf doc, doc_text) ::
        RAGPipeline.prepare_context_parts max_context_length (cur + doc_text.length) rest

/-- The f-string `f"Source: {label}\n{doc_text}"` of pipeline.py lines 263/266. -/
def formatPart (p : String × String) : String :=
  "Source: " ++ p.1 ++ "\n" ++ p.2

/-- Model of `RAGPipeline._prepare_context` (pipeline.py lines 242-269): the parts
accumulated by the loop, joined by `"\n\n"`. -/
def RAGPipeline.prepare_context (max_context_length : ℕ) (retrieved_docs : List (Document × ℚ)) :
    String :=
  String.intercalate "\n\n"
    ((RAGPipeline.prepare_context_parts max_context_length 0 retrieved_docs).map formatPart)

/-- The prompt template of `RAGPipeline._generate_answer` (pipeline.py lines 281-296). -/
def build_prompt (question context : String) : String :=
  "You are an expert maintenance advisor for commercial trucking fleets. Use the provided context to answer the user\x27s question accurately and helpfully.\n\nContext:\n"
    ++ context
    ++ "\n\nQuestion: " ++ question
    ++ "\n\nInstructions:\n- Provide a detailed, practical answer based on the context\n- Focus on actionable maintenance advice\n- Include specific procedures, costs, or timeframes when available\n- If the question relates to safety or compliance, emphasize those aspects\n- If the context doesn\x27t contain enough information, say so clearly\n- Cite sources when referencing specific information\n\nAnswer:"

/-- The response of `RAGPipeline.query`: a dictionary with keys `answer`,
`sources` and `confidence`. -/
structure QueryResponse where
  answer : String
  sources : List SourceInfo
  confidence : ℚ
deriving DecidableEq

/-- The fixed no-match answer of pipeline.py line 211. -/
def no_match_answer : String :=
  "I couldn\x27t find relevant information to answer your question. Please try rephrasing or asking about a different topic."

/-- The fixed error answer of pipeline.py line 237. -/
def error_answer : String :=
  "I encountered an error while processing your question. Please try again."

/-- The body of the `try` block of `RAGPipeline.query` (pipeline.py lines
205-232).  `retrieve` stands for the outcome of
`self.vector_store.similarity_search(question, k=k)` and `generate` for the
outcome of `self.llm.generate(prompt, max_tokens=1000)`; a Python exception
raised by either is an `Except.error`.  The pure helpers
(`prepare_context`, `calculate_confidence`, `format_sources`) are the
definitions above. -/
def RAGPipeline.queryInner (max_context_length : ℕ)
    (retrieve : Except String (List (Document × ℚ)))
    (generate : String → Except String String)
    (question : String) (include_sources : Bool) : Except String QueryResponse :=
  match retrieve with
  | Except.error e => Except.error e
  | Except.ok retrieved_docs =>
    if retrieved_docs.isEmpty then
      Except.ok { answer := no_match_answer, sources := [], confidence := 0 }
    else
      let context := RAGPipeline.prepare_context max_context_length retrieved_docs
      match generate (build_prompt question context) with
      | Except.error e => Except.error e
      | Except.ok answer =>
        Except.ok
          { answer := answer
            sources := if include_sources then RAGPipeline.format_sources retrieved_docs else []
            confidence := RAGPipeline.calculate_confidence retrieved_docs }

/-- Model of `RAGPipeline.query` (pipeline.py lines 189-240): the `try` body wrapped in
the `except` handler that converts any exception into the fixed error
response. -/
def RAGPipeline.query (max_context_length : ℕ)
    (retrieve : Except String (List (Document × ℚ)))
    (generate : String → Except String String)
    (question : String) (include_sources : Bool) : QueryResponse :=
  match RAGPipeline.queryInner max_context_length retrieve generate question include_sources with
  | Except.ok response => response
  | Except.error _ => { answer := error_answer, sources := [], confidence := 0 }

/-- Model of `EmbeddingManager._get_cache_key` (embeddings.py lines 180-182):
`f"embed_{hash(text)}"`.  `h` models Python's builtin `hash` on strings. -/
def EmbeddingManager.cacheKey (h : String → Int) (text : String) : String :=
  "embed_" ++ toString (h text)

/-- Python dict assignment `m[k] = v`: overwrite the existing entry for `k`,
or add a new one. -/
def dictInsert (k : String) (v : List ℚ) (m : List (String × List ℚ)) :
    List (String × List ℚ) :=
  if (m.lookup k).isSome then m.map (fun p => if p.1 = k then (k, v) else p)
  else m ++ [(k, v)]

/-- The first loop of `EmbeddingManager.get_embeddings` (embeddings.py lines
137-145): walk the texts (with running index `i`), producing the placeholder
list `embeddings` (cached value, or `none` for a miss), `texts_to_embed`
and `indices_to_embed`. -/
def EmbeddingManager.scanCache (key : String → String) (cache : List (String × List ℚ))
    (i : ℕ) : List String → List (Option (List ℚ)) × List String × List ℕ
  | [] => ([], [], [])
  | text :: rest =>
    let r := EmbeddingManager.scanCache key cache (i + 1) rest
    match cache.lookup (key text) with
    | some emb => (some emb :: r.1, r.2.1, r.2.2)
    | none => (none :: r.1, text :: r.2.1, i :: r.2.2)

/-- The second loop of `EmbeddingManager.get_embeddings` (embeddings.py lines
151-155): for each `(idx, new_embedding)` pair, write the cache entry for
`texts[idx]` and fill `embeddings[idx]`. -/
def EmbeddingManager.fillLoop (key : String → String) (texts : List String) :
    List (ℕ × List ℚ) → List (Option (List ℚ)) × List (String × List ℚ) →
      List (Option (List ℚ)) × List (String × List ℚ)
  | [], acc => acc
  | (idx, new_embedding) :: rest, (embeddings, cache) =>
    EmbeddingManager.fillLoop key texts rest
      (embeddings.set idx (some new_embedding),
       dictInsert (key (texts.getD idx "")) new_embedding cache)

/-- Model of `EmbeddingManager.get_embeddings` (embeddings.py lines 120-157).
`provider` stands for `self.embedding_model.embed_documents`, which performs
one embedding-endpoint call per text it is given.  Returns the embeddings
(`none` marks a placeholder the fill loop did not reach), the cache after the
call, and the batch of texts sent to the provider (`[]` when the provider was
not invoked); the length of that batch is the number of per-text provider
calls the invocation causes. -/
def EmbeddingManager.get_embeddings (h : String → Int)
    (provider : List String → List (List ℚ))
    (cache : List (String × List ℚ)) (texts : List String) (use_cache : Bool) :
    List (Option (List ℚ)) × List (String × List ℚ) × List String :=
  if use_cache = false then
    ((provider texts).map some, cache, texts)
  else
    let key := EmbeddingManager.cacheKey h
    let scanned := EmbeddingManager.scanCache key cache 0 texts
    if scanned.2.1.isEmpty then
      (scanned.1, cache, [])
    else
      let new_embeddings := provider scanned.2.1
      let filled := EmbeddingManager.fillLoop key texts
        (scanned.2.2.zip new_embeddings) (scanned.1, cache)
      (filled.1, filled.2, scanned.2.1)

/-- The fixed apology answer of `GoogleLLM.generate` (pipeline.py line 60). -/
def apology_answer : String :=
  "I apologize, but I encountered an error processing your request. Please try again."

/-- The `tenacity` `@retry(stop=stop_after_attempt(n))` combinator: run the
decorated body (here instrumented to return its provider-call count as a
second component); when the body raises, retry, up to `n` attempts in total,
re-raising the final failure.  The first argument of `body` is the attempt
index. -/
def retryRun {α : Type} (body : ℕ → Except String α × ℕ) :
    ℕ → ℕ → Except String α × ℕ
  | _, 0 => (Except.error "retry misconfigured", 0)
  | attempt, Nat.succ fuel =>
    match body attempt, fuel with
    | (Except.ok a, c), _ => (Except.ok a, c)
    | (Except.error e, c), 0 => (Except.error e, c)
    | (Except.error _, c), Nat.succ f =>
      let r := retryRun body (attempt + 1) (Nat.succ f)
      (r.1, c + r.2)

/-- Model of `GoogleLLM.generate` (pipeline.py lines 34-60): decorated with
`@retry(stop=stop_after_attempt(3), wait=wait_exponential(...))`; the body
makes one `generate_content` call (modelled by `provider prompt attempt`,
which may raise) and catches any exception itself, returning the fixed
apology string.  Result: the generated (or fallback) text together with the
total number of provider calls made. -/
def GoogleLLM.generate (provider : String → ℕ → Except String String)
    (prompt : String) : Except String String × ℕ :=
  retryRun (fun attempt =>
    match provider prompt attempt with
    | Except.ok text => (Except.ok text, 1)
    | Except.error _ => (Except.ok apology_answer, 1)) 0 3

/-- Model of `GoogleEmbeddings.embed_query` (embeddings.py lines 76-105): decorated
with the same `@retry(stop=stop_after_attempt(3), ...)`; the body truncates
the text to 2048 characters, makes one `embed_content` call (modelled by
`provider text attempt`) and catches any exception itself, returning the
768-dimensional zero vector.  Result: the embedding (or fallback) together
with the total number of provider calls made. -/
def GoogleEmbeddings.embed_query (provider : String → ℕ → Except String (List ℚ))
    (text : String) : Except String (List ℚ) × ℕ :=
  retryRun (fun attempt =>
    let t := if text.length > 2048 then text.take 2048 else text
    match provider t attempt with
    | Except.ok emb => (Except.ok emb, 1)
    | Except.error _ => (Except.ok (List.replicate 768 0), 1)) 0 3

/-- A 50-character chunk used as a concrete test input. -/
def doc50 : Document := ⟨String.mk (List.replicate 50 'x'), []⟩

/-- A 101-character chunk used as a concrete test input. -/
def doc101 : Document := ⟨String.mk (List.replicate 101 'a'), []⟩

/-- A 200-character chunk used as a concrete test input. -/
def doc200 : Document := ⟨String.mk (List.replicate 200 'y'), []⟩

/-- A 250-character chunk with a `source` metadata entry, used as a concrete
test input. -/
def doc250 : Document := ⟨String.mk (List.replicate 250 'x'), [("source", "m.pdf")]⟩

/-! ## Helper lemmas -/

theorem string_length_take (s : String) (n : ℕ) : (s.take n).length = min n s.length := by
  cases s with
  | mk d => simp [String.take_eq, String.length]

/-! ## Claims -/

/-- C2: whenever retrieval returns an empty result sequence, `RAGPipeline.query`
returns the fixed no-match response with confidence 0 and empty sources.  The
statement quantifies over an arbitrary `generate` function and an arbitrary
`max_context_length`, so the response cannot depend on either: the context
assembler and the answer generator are not invoked. -/
theorem query_empty_retrieval (max_context_length : ℕ)
    (retrieve : Except String (List (Document × ℚ)))
    (generate : String → Except String String)
    (question : String) (include_sources : Bool)
    (h : retrieve = Except.ok []) :
    RAGPipeline.query max_context_length retrieve generate question include_sources
      = { answer := no_match_answer, sources := [], confidence := 0 } := by
  subst h
  rfl

/-- Witness for C2: a generator that would fail if invoked is never reached. -/
theorem query_empty_retrieval_witness :
    RAGPipeline.query 4000 (Except.ok [])
        (fun _ => Except.error "generator must not be invoked") "q" true
      = { answer := no_match_answer, sources := [], confidence := 0 } :=
  query_empty_retrieval 4000 (Except.ok [])
    (fun _ => Except.error "generator must not be invoked") "q" true rfl

/-- C4: `RAGPipeline.query` is a total function into `QueryResponse` (it never
propagates an exception), and whenever an inner step raises — the retrieval
call, or the generation call on the prompt built from the assembled context —
the exception is caught at the orchestrator boundary and converted into the
fixed error response with confidence 0 and empty sources. -/
theorem query_catches_exceptions (max_context_length : ℕ)
    (retrieve : Except String (List (Document × ℚ)))
    (generate : String → Except String String)
    (question : String) (include_sources : Bool) :
    (∀ e, retrieve = Except.error e →
      RAGPipeline.query max_context_length retrieve generate question include_sources
        = { answer := error_answer, sources := [], confidence := 0 }) ∧
    (∀ retrieved_docs e, retrieve = Except.ok retrieved_docs → retrieved_docs ≠ [] →
      generate (build_prompt question
          (RAGPipeline.prepare_context max_context_length retrieved_docs))
        = Except.error e →
      RAGPipeline.query max_context_length retrieve generate question include_sources
        = { answer := error_answer, sources := [], confidence := 0 }) := by
  constructor
  · intro e h
    subst h
    rfl
  · intro retrieved_docs e hr hne hg
    subst hr
    cases retrieved_docs with
    | nil => exact absurd rfl hne
    | cons d rest =>
      simp [RAGPipeline.query, RAGPipeline.queryInner, hg]

/-- Witness for C4: a raising retrieval and a raising generator both produce
the fixed error response. -/
theorem query_catches_exceptions_witness :
    RAGPipeline.query 4000 (Except.error "vector store down")
        (fun _ => Except.ok "a") "q" true
      = { answer := error_answer, sources := [], confidence := 0 } ∧
    RAGPipeline.query 4000 (Except.ok [(⟨"chunk", []⟩, 1)])
        (fun _ => Except.error "llm down") "q" true
      = { answer := error_answer, sources := [], confidence := 0 } :=
  ⟨(query_catches_exceptions 4000 (Except.error "vector store down")
      (fun _ => Except.ok "a") "q" true).1 "vector store down" rfl,
   (query_catches_exceptions 4000 (Except.ok [(⟨"chunk", []⟩, 1)])
      (fun _ => Except.error "llm down") "q" true).2 [(⟨"chunk", []⟩, 1)] "llm down"
      rfl (List.cons_ne_nil _ _) rfl⟩

/-- C10: passing `threshold = 0.0` to `similarity_search` behaves exactly like
passing no threshold at all — the falsy value is replaced by the configured
default (0.7), so the score filter is not disabled but applies the default
threshold. -/
theorem similarity_search_zero_threshold_is_default (raw : List (Document × ℚ)) :
    VectorStore.similarity_search raw (some 0) = VectorStore.similarity_search raw none ∧
    VectorStore.similarity_search raw (some 0)
      = raw.filter (fun p => p.2 ≥ settings.similarity_threshold) := by
  have hd : settings.similarity_threshold ≠ 0 := by
    norm_num [settings.similarity_threshold]
  constructor
  · simp [VectorStore.similarity_search, pyOr]
  · simp [VectorStore.similarity_search, pyOr, hd]

/-- C5 counterexample: the claim quantifies over every threshold value, but at
threshold `0.0` a result whose score equals the threshold exactly is *not*
retained: `0.0` is falsy, gets replaced by the default `0.7`, and the result
scoring `0.0` is filtered out. -/
theorem similarity_search_zero_threshold_drops_equal_score :
    ((⟨"c", []⟩, (0 : ℚ)) ∈ ([(⟨"c", []⟩, (0 : ℚ))] : List (Document × ℚ))) ∧
    VectorStore.similarity_search [(⟨"c", []⟩, 0)] (some 0) = [] := by
  refine ⟨List.mem_singleton_self _, ?_⟩
  have hd : ¬ ((0 : ℚ) ≥ settings.similarity_threshold) := by
    norm_num [settings.similarity_threshold]
  simp [VectorStore.similarity_search, pyOr, settings.similarity_threshold, hd]

/-- C5 amended: for every *nonzero* threshold value (zero is falsy and is
replaced by the configured default, see C10), the post-filter is an inclusive
lower bound: the returned sequence is exactly the raw results with score
`≥ threshold`, so a result scoring exactly at the threshold is retained and a
result scoring below it is discarded. -/
theorem similarity_search_inclusive_lower_bound (t : ℚ) (ht : t ≠ 0)
    (raw : List (Document × ℚ)) (d : Document) (s : ℚ) :
    VectorStore.similarity_search raw (some t) = raw.filter (fun p => p.2 ≥ t) ∧
    ((d, s) ∈ VectorStore.similarity_search raw (some t) ↔ (d, s) ∈ raw ∧ t ≤ s) := by
  have h1 : VectorStore.similarity_search raw (some t) = raw.filter (fun p => p.2 ≥ t) := by
    simp [VectorStore.similarity_search, pyOr, ht]
  refine ⟨h1, ?_⟩
  rw [h1]
  simp [List.mem_filter]

/-- Witness for C5 (amended): at threshold 1, a result scoring exactly 1 is
retained and a result scoring below is discarded. -/
theorem similarity_search_inclusive_lower_bound_witness :
    ((⟨"hit", []⟩, (1 : ℚ)) ∈
        VectorStore.similarity_search [(⟨"hit", []⟩, 1), (⟨"miss", []⟩, 0)] (some 1)
      ↔ (⟨"hit", []⟩, (1 : ℚ)) ∈
          ([(⟨"hit", []⟩, (1 : ℚ)), (⟨"miss", []⟩, 0)] : List (Document × ℚ)) ∧ (1 : ℚ) ≤ 1) :=
  (similarity_search_inclusive_lower_bound 1 one_ne_zero
    [(⟨"hit", []⟩, 1), (⟨"miss", []⟩, 0)] ⟨"hit", []⟩ 1).2

/-- C3 counterexample: the assembled context counts only the chunk texts
against `max_context_length` — the `"Source: ..."` labels are not counted —
so the returned string can be longer than `max_length` plus the length of the
ellipsis marker.  Here `max_length = 10`, the single chunk text `"aaaaa"`
(5 characters) fits, and the returned string `"Source: X\naaaaa"` has length
15 > 10 + 3. -/
theorem prepare_context_exceeds_length_bound :
    (RAGPipeline.prepare_context 10 [(⟨"aaaaa", [("source", "X")]⟩, 1/2)]).length
      > 10 + "...".length := by
  decide

/-- Helper for C3 (amended): along the loop of `_prepare_context`,
`current_length` plus the total length of the chunk texts still to be added
stays below `max_context_length` plus the ellipsis length. -/
theorem prepare_context_parts_content_le (maxLen : ℕ) :
    ∀ (docs : List (Document × ℚ)) (cur : ℕ), cur ≤ maxLen →
      cur + ((RAGPipeline.prepare_context_parts maxLen cur docs).map
          (fun p => p.2.length)).sum ≤ maxLen + 3
  | [], cur, hcur => by simp [RAGPipeline.prepare_context_parts]; omega
  | (d, s) :: rest, cur, hcur => by
    simp only [RAGPipeline.prepare_context_parts]
    split_ifs with hbig hrem
    · have h1 : (d.page_content.take (maxLen - cur)).length ≤ maxLen - cur := by
        rw [string_length_take]; exact min_le_left _ _
      have h2 : (d.page_content.take (maxLen - cur) ++ "...").length
          = (d.page_content.take (maxLen - cur)).length + 3 := by
        rw [String.length_append]
        rfl
      simp only [List.map_cons, List.map_nil, List.sum_cons, List.sum_nil]
      omega
    · simp
      omega
    · have ih := prepare_context_parts_content_le maxLen rest
        (cur + d.page_content.length) (by omega)
      simp only [List.map_cons, List.sum_cons]
      omega

/-- C3 amended: what `_prepare_context` bounds by `max_length` (plus one
ellipsis marker) is the total length of the chunk *texts* it includes — the
second components of the accumulated parts.  The full returned string
additionally contains, uncounted, one `"Source: <label>\n"` prefix per part
and the `"\n\n"` separators, and can therefore exceed `max_length + 3` (see
the counterexample). -/
theorem prepare_context_content_bounded (maxLen : ℕ) (docs : List (Document × ℚ)) :
    ((RAGPipeline.prepare_context_parts maxLen 0 docs).map
        (fun p => p.2.length)).sum ≤ maxLen + "...".length := by
  have h := prepare_context_parts_content_le maxLen docs 0 (Nat.zero_le _)
  have h3 : ("..." : String).length = 3 := rfl
  omega

/-- C9 counterexample: with `max_length = 100` and a single 101-character
chunk, the chunk does not fit and the headroom is exactly 100 characters —
"at least 100" in the claim's words, so the claim requires a truncated prefix
to be included — yet the code's strict test `remaining_length > 100` fails
and the assembled context is empty. -/
theorem prepare_context_no_partial_at_exactly_100 :
    (100 : ℕ) - 0 ≥ 100 ∧
    0 + doc101.page_content.length > 100 ∧
    RAGPipeline.prepare_context 100 [(doc101, 1/2)] = "" := by
  refine ⟨by decide, by decide, by decide⟩

/-- Helper for C9: the loop of `_prepare_context` consumes a fully fitting
prefix of the ranked results whole, advancing `current_length` by the sum of
their text lengths. -/
theorem prepare_context_parts_append (maxLen : ℕ) :
    ∀ (front : List (Document × ℚ)) (cur : ℕ) (tail : List (Document × ℚ)),
      cur + ((front.map (fun p => p.1.page_content.length)).sum) ≤ maxLen →
      RAGPipeline.prepare_context_parts maxLen cur (front ++ tail)
        = front.map (fun p => (sourceOf p.1, p.1.page_content))
          ++ RAGPipeline.prepare_context_parts maxLen
              (cur + (front.map (fun p => p.1.page_content.length)).sum) tail
  | [], cur, tail, h => by simp
  | (d, s) :: rest, cur, tail, h => by
    simp only [List.map_cons, List.sum_cons] at h
    have hfit : ¬ (cur + d.page_content.length > maxLen) := by omega
    have ih := prepare_context_parts_append maxLen rest
      (cur + d.page_content.length) tail (by omega)
    simp only [List.cons_append, RAGPipeline.prepare_context_parts, hfit, if_false,
      List.map_cons, List.sum_cons, List.append_eq] at ih ⊢
    rw [ih, Nat.add_assoc]

/-- C9 amended: when the ranked results are a fully fitting prefix `front`
followed by a chunk that does not fit, the assembled parts are the fronts in
full plus — exactly when *strictly more* than 100 characters of headroom
remain (the code tests `remaining_length > 100`, so at exactly 100 nothing is
added; see the counterexample) — one final partial entry holding the
truncated prefix of that chunk suffixed with the ellipsis marker; everything
after that chunk is dropped. -/
theorem prepare_context_partial_tail (maxLen : ℕ) (front : List (Document × ℚ))
    (d : Document) (s : ℚ) (rest : List (Document × ℚ))
    (hfit : ((front.map (fun p => p.1.page_content.length)).sum) ≤ maxLen)
    (hover : maxLen <
      ((front.map (fun p => p.1.page_content.length)).sum) + d.page_content.length) :
    RAGPipeline.prepare_context_parts maxLen 0 (front ++ (d, s) :: rest)
      = front.map (fun p => (sourceOf p.1, p.1.page_content))
        ++ (if 100 < maxLen - ((front.map (fun p => p.1.page_content.length)).sum) then
             [(sourceOf d, d.page_content.take
                 (maxLen - ((front.map (fun p => p.1.page_content.length)).sum)) ++ "...")]
           else []) := by
  have happ := prepare_context_parts_append maxLen front 0 ((d, s) :: rest) (by omega)
  simp only [Nat.zero_add] at happ
  rw [happ]
  congr 1
  have hbig : ((front.map (fun p => p.1.page_content.length)).sum) + d.page_content.length
      > maxLen := hover
  simp only [RAGPipeline.prepare_context_parts, hbig, if_true, gt_iff_lt]

set_option maxRecDepth 20000 in
/-- Witness for C9 (amended): one fully fitting 50-character chunk followed by
a 200-character chunk under `max_length = 160`: headroom is 110 > 100, so the
110-character truncated prefix is included as the final partial entry. -/
theorem prepare_context_partial_tail_witness :
    ((([(doc50, 1)] : List (Document × ℚ)).map
        (fun p => p.1.page_content.length)).sum ≤ 160) ∧
    (160 < (([(doc50, 1)] : List (Document × ℚ)).map
        (fun p => p.1.page_content.length)).sum + doc200.page_content.length) ∧
    RAGPipeline.prepare_context_parts 160 0
        (([(doc50, 1)] : List (Document × ℚ)) ++ (doc200, 1) :: [])
      = ([(doc50, 1)] : List (Document × ℚ)).map
          (fun p => (sourceOf p.1, p.1.page_content))
        ++ (if 100 < 160 - (([(doc50, 1)] : List (Document × ℚ)).map
              (fun p => p.1.page_content.length)).sum then
             [(sourceOf doc200, doc200.page_content.take
                 (160 - (([(doc50, 1)] : List (Document × ℚ)).map
                   (fun p => p.1.page_content.length)).sum) ++ "...")]
           else []) :=
  ⟨by decide, by decide,
   prepare_context_partial_tail 160 [(doc50, 1)] doc200 1 [] (by decide) (by decide)⟩

/-- C8: on the successful path the sources of the query response are the
formatted retrieved results, and the `i`-th formatted entry (0-based; its
`id` field is the 1-based rank `i + 1`) carries the chunk's original
metadata, its score rounded to 3 decimals, and its content truncated to the
first 200 characters plus an ellipsis marker exactly when it is longer than
200 characters. -/
theorem query_sources_entries (max_context_length : ℕ)
    (retrieve : Except String (List (Document × ℚ)))
    (generate : String → Except String String)
    (question : String)
    (retrieved_docs : List (Document × ℚ)) (ans : String) (i : ℕ)
    (h : i < retrieved_docs.length)
    (hret : retrieve = Except.ok retrieved_docs)
    (hgen : generate (build_prompt question
        (RAGPipeline.prepare_context max_context_length retrieved_docs))
      = Except.ok ans) :
    (RAGPipeline.query max_context_length retrieve generate question true).sources
      = RAGPipeline.format_sources retrieved_docs ∧
    (RAGPipeline.format_sources retrieved_docs)[i]? = some
      { id := i + 1
        content := if retrieved_docs[i].1.page_content.length > 200
          then retrieved_docs[i].1.page_content.take 200 ++ "..."
          else retrieved_docs[i].1.page_content
        metadata := retrieved_docs[i].1.metadata
        similarity_score := roundTo 3 retrieved_docs[i].2 } := by
  constructor
  · subst hret
    cases retrieved_docs with
    | nil => exact absurd h (Nat.not_lt_zero i)
    | cons d rest =>
      simp [RAGPipeline.query, RAGPipeline.queryInner, hgen]
  · simp [RAGPipeline.format_sources, List.getElem?_map, List.getElem?_enum,
      List.getElem?_eq_getElem h]

/-- Witness for C8: a 250-character chunk is truncated to 200 characters plus
the ellipsis marker in the sources of a successful query. -/
theorem query_sources_entries_witness :
    (0 : ℕ) < ([(doc250, 1)] : List (Document × ℚ)).length ∧
    (RAGPipeline.format_sources [(doc250, 1)])[0]? = some
      { id := 0 + 1
        content := if (([(doc250, 1)] : List (Document × ℚ))[0].1.page_content.length > 200)
          then ([(doc250, 1)] : List (Document × ℚ))[0].1.page_content.take 200 ++ "..."
          else ([(doc250, 1)] : List (Document × ℚ))[0].1.page_content
        metadata := ([(doc250, 1)] : List (Document × ℚ))[0].1.metadata
        similarity_score := roundTo 3 ([(doc250, 1)] : List (Document × ℚ))[0].2 } :=
  ⟨by decide,
   (query_sources_entries 4000 (Except.ok [(doc250, 1)])
      (fun _ => Except.ok "ans") "q" [(doc250, 1)] "ans" 0 (by decide) rfl rfl).2⟩

/-- C1: on the successful path with a non-empty retrieval, the confidence field
of the query response is the arithmetic mean of the similarity scores, clamped
to [0,1] and rounded to 2 decimals; in particular scores `[0.8, 0.6]` yield
confidence `0.70`. -/
theorem query_confidence_is_clamped_rounded_mean (max_context_length : ℕ)
    (retrieve : Except String (List (Document × ℚ)))
    (generate : String → Except String String)
    (question : String) (include_sources : Bool)
    (retrieved_docs : List (Document × ℚ)) (ans : String)
    (hret : retrieve = Except.ok retrieved_docs)
    (hne : retrieved_docs ≠ [])
    (hgen : generate (build_prompt question
        (RAGPipeline.prepare_context max_context_length retrieved_docs))
      = Except.ok ans) :
    (RAGPipeline.query max_context_length retrieve generate question
        include_sources).confidence
      = roundTo 2 (specClamp01 (specMean (retrieved_docs.map Prod.snd))) ∧
    RAGPipeline.calculate_confidence [(⟨"a", []⟩, 4/5), (⟨"b", []⟩, 3/5)] = 7/10 := by
  constructor
  · subst hret
    cases retrieved_docs with
    | nil => exact absurd rfl hne
    | cons d rest =>
      simp only [RAGPipeline.query, RAGPipeline.queryInner, List.isEmpty_cons, hgen,
        Bool.false_eq_true, if_false]
      simp [RAGPipeline.calculate_confidence, specClamp01, specMean]
  · norm_num [RAGPipeline.calculate_confidence, roundTo, round_eq]

/-- Witness for C1: two results scoring 0.8 and 0.6 give confidence 0.70. -/
theorem query_confidence_is_clamped_rounded_mean_witness :
    ([(⟨"a", []⟩, (4 : ℚ)/5), (⟨"b", []⟩, 3/5)] : List (Document × ℚ)) ≠ [] ∧
    (RAGPipeline.query 4000 (Except.ok [(⟨"a", []⟩, 4/5), (⟨"b", []⟩, 3/5)])
        (fun _ => Except.ok "ans") "q" true).confidence
      = roundTo 2 (specClamp01 (specMean
          (([(⟨"a", []⟩, (4 : ℚ)/5), (⟨"b", []⟩, 3/5)] : List (Document × ℚ)).map Prod.snd))) :=
  ⟨List.cons_ne_nil _ _,
   (query_confidence_is_clamped_rounded_mean 4000
      (Except.ok [(⟨"a", []⟩, 4/5), (⟨"b", []⟩, 3/5)]) (fun _ => Except.ok "ans") "q" true
      [(⟨"a", []⟩, 4/5), (⟨"b", []⟩, 3/5)] "ans" rfl (List.cons_ne_nil _ _) rfl).1⟩

/-- C6: with caching enabled, requesting the embedding of the same text twice
(two successive `get_embeddings` calls, threading the cache) causes exactly
one per-text provider call in total; requesting two different texts (with
distinct cache keys — Python's `hash` on distinct strings) causes two; and
with `use_cache = false` the full text list is sent to the provider on every
request, regardless of the cache contents.  `hprov` states that the provider
returns one embedding per text, as `embed_documents` always does (it
substitutes a zero-vector fallback on failure rather than dropping a text). -/
theorem embedding_cache_provider_calls (h : String → Int)
    (provider : List String → List (List ℚ)) (t t1 t2 : String)
    (hprov : ∀ ts, (provider ts).length = ts.length)
    (hkey : EmbeddingManager.cacheKey h t1 ≠ EmbeddingManager.cacheKey h t2) :
    ((EmbeddingManager.get_embeddings h provider [] [t] true).2.2).length
      + ((EmbeddingManager.get_embeddings h provider
          ((EmbeddingManager.get_embeddings h provider [] [t] true).2.1)
          [t] true).2.2).length = 1 ∧
    ((EmbeddingManager.get_embeddings h provider [] [t1] true).2.2).length
      + ((EmbeddingManager.get_embeddings h provider
          ((EmbeddingManager.get_embeddings h provider [] [t1] true).2.1)
          [t2] true).2.2).length = 2 ∧
    (∀ cache ts,
      (EmbeddingManager.get_embeddings h provider cache ts false).2.2 = ts) := by
  obtain ⟨e, he⟩ := List.length_eq_one.mp (hprov [t])
  obtain ⟨e1, he1⟩ := List.length_eq_one.mp (hprov [t1])
  refine ⟨?_, ?_, fun cache ts => rfl⟩
  · simp [EmbeddingManager.get_embeddings, EmbeddingManager.scanCache,
      EmbeddingManager.fillLoop, dictInsert, he]
  · have hk : ((EmbeddingManager.cacheKey h t2 == EmbeddingManager.cacheKey h t1) = false) :=
      beq_eq_false_iff_ne.mpr (Ne.symm hkey)
    simp [EmbeddingManager.get_embeddings, EmbeddingManager.scanCache,
      EmbeddingManager.fillLoop, dictInsert, he1, hk, List.lookup]

/-- Witness for C6: Python hash modelled by string length; texts "a" and "ab"
have distinct cache keys; the provider returns one embedding per text. -/
theorem embedding_cache_provider_calls_witness :
    (∀ ts : List String,
      ((fun (ts : List String) => ts.map (fun _ => ([] : List ℚ))) ts).length = ts.length) ∧
    EmbeddingManager.cacheKey (fun s => (s.length : Int)) "a"
      ≠ EmbeddingManager.cacheKey (fun s => (s.length : Int)) "ab" ∧
    ((EmbeddingManager.get_embeddings (fun s => (s.length : Int))
        (fun ts => ts.map (fun _ => ([] : List ℚ))) [] ["a"] true).2.2).length
      + ((EmbeddingManager.get_embeddings (fun s => (s.length : Int))
          (fun ts => ts.map (fun _ => ([] : List ℚ)))
          ((EmbeddingManager.get_embeddings (fun s => (s.length : Int))
            (fun ts => ts.map (fun _ => ([] : List ℚ))) [] ["a"] true).2.1)
          ["a"] true).2.2).length = 1 :=
  ⟨fun ts => List.length_map ts _, by decide,
   (embedding_cache_provider_calls (fun s => (s.length : Int))
      (fun ts => ts.map (fun _ => ([] : List ℚ))) "a" "a" "ab"
      (fun ts => List.length_map ts _) (by decide)).1⟩

/-- Helper for C7: when the decorated body never raises, the `tenacity` retry
wrapper performs exactly one attempt. -/
theorem retryRun_body_ok {α : Type} (body : ℕ → Except String α × ℕ) (att fuel : ℕ)
    (h : ∀ n, ∃ a c, body n = (Except.ok a, c)) :
    retryRun body att (Nat.succ fuel) = body att := by
  obtain ⟨a, c, hb⟩ := h att
  unfold retryRun
  rw [hb]

set_option maxRecDepth 4000 in
/-- C7 (code-bug evidence): because `GoogleLLM.generate` and
`GoogleEmbeddings.embed_query` catch every provider exception *inside* the
decorated body (returning the apology string resp. the zero vector), the
`@retry(stop=stop_after_attempt(3), wait=wait_exponential(...))` decorator
never observes a failure: every call — succeeding or failing — performs
exactly one provider call, and a provider that fails on every attempt yields
the degraded fallback immediately after a single attempt instead of the
claimed three attempts with exponential backoff.  (The failure is indeed
never propagated to the caller, as the claim says.) -/
theorem provider_failure_single_attempt (pg : String → ℕ → Except String String)
    (pe : String → ℕ → Except String (List ℚ)) (prompt text : String) :
    (GoogleLLM.generate pg prompt).2 = 1 ∧
    (GoogleEmbeddings.embed_query pe text).2 = 1 ∧
    GoogleLLM.generate (fun _ _ => Except.error "network down") "p"
      = (Except.ok apology_answer, 1) ∧
    GoogleEmbeddings.embed_query (fun _ _ => Except.error "network down") "t"
      = (Except.ok (List.replicate 768 0), 1) := by
  have hg : GoogleLLM.generate pg prompt
      = (match pg prompt 0 with
         | Except.ok text => (Except.ok text, 1)
         | Except.error _ => (Except.ok apology_answer, 1)) := by
    refine retryRun_body_ok _ 0 2 (fun n => ?_)
    cases hp : pg prompt n with
    | ok a => exact ⟨a, 1, by simp [hp]⟩
    | error e => exact ⟨apology_answer, 1, by simp [hp]⟩
  have he : GoogleEmbeddings.embed_query pe text
      = (let s := if text.length > 2048 then text.take 2048 else text
         match pe s 0 with
         | Except.ok emb => (Except.ok emb, 1)
         | Except.error _ => (Except.ok (List.replicate 768 0), 1)) := by
    refine retryRun_body_ok _ 0 2 (fun n => ?_)
    cases hp : pe (if text.length > 2048 then text.take 2048 else text) n with
    | ok v => exact ⟨v, 1, by simp [hp]⟩
    | error e => exact ⟨List.replicate 768 0, 1, by simp [hp]⟩
  refine ⟨?_, ?_, ?_, ?_⟩
  · rw [hg]; cases pg prompt 0 <;> rfl
  · rw [he]; simp only []
    cases pe (if text.length > 2048 then text.take 2048 else text) 0 <;> rfl
  · exact retryRun_body_ok _ 0 2 (fun n => ⟨apology_answer, 1, rfl⟩)
  · exact retryRun_body_ok _ 0 2 (fun n => ⟨List.replicate 768 0, 1, rfl⟩)
